import Mathlib

/-!
# Verification of the AnatomyGuru feedback-optimiser report pipeline

A shallow embedding of the report-synthesis pipeline of the repository
(React client `src/App.tsx`, relay function `src/netlify/functions/evaluate.ts`,
shared entity model `src/types.ts`), together with proofs settling the frozen
claims about it.

Modelling conventions:
* JSON values are modelled by the inductive `Json`; `JSON.parse` applied to a
  syntactically valid text is modelled by working directly with the parsed
  `Json` value.  Gateway responses carry `Option Json`: `none` models an
  absent/empty `response.text`, `some j` a text whose parse yields `j`.
* Bytes are natural numbers, with `< 256` carried as an explicit hypothesis.
* The generation gateway and `JSON.parse` of the HTTP body are environment
  effects; the relay handler is parameterised over them so that theorems can
  quantify over every possible environment behaviour.
-/

namespace AnatomyGuru

/-! ## JSON values -/

/-- A parsed JSON value, as produced by `JSON.parse` on a syntactically valid
text.  Numbers are modelled as integers (all marks and totals in the claims
are integral). -/
inductive Json where
  | null : Json
  | bool : Bool → Json
  | num : Int → Json
  | str : String → Json
  | arr : List Json → Json
  | obj : List (String × Json) → Json

/-- JavaScript object field access on a parsed JSON object: JSON.parse keeps
the last occurrence of a duplicated key, so lookup scans from the right.
On non-objects field access yields `undefined`, modelled as `none`. -/
def Json.getField : Json → String → Option Json
  | .obj fields, k => fields.foldl (fun acc kv => if kv.1 = k then some kv.2 else acc) none
  | _, _ => none

/-- Whether a JSON value is an object. -/
def Json.isObj : Json → Bool
  | .obj _ => true
  | _ => false

/-- Opening brace character (U+007B). -/
def lbrace : Char := Char.ofNat 123

/-- Closing brace character (U+007D). -/
def rbrace : Char := Char.ofNat 125

/-- Minimal JSON string escaping (quotes and backslashes), as performed by
`JSON.stringify`. -/
def jsonEscape (l : List Char) : List Char :=
  l.foldr (fun c acc =>
    if c = '"' then '\\' :: '"' :: acc
    else if c = '\\' then '\\' :: '\\' :: acc
    else c :: acc) []

/-- Characters of a JSON string literal. -/
def jsonQuote (s : String) : List Char := '"' :: (jsonEscape s.data ++ ['"'])

mutual

/-- Characters of the `JSON.stringify` serialisation of a value. -/
def Json.toChars : Json → List Char
  | .null => "null".data
  | .bool true => "true".data
  | .bool false => "false".data
  | .num n => (toString n).data
  | .str s => jsonQuote s
  | .arr xs => '[' :: (Json.arrChars xs ++ [']'])
  | .obj fs => lbrace :: (Json.objChars fs ++ [rbrace])

/-- Characters of the comma-separated serialisation of array elements. -/
def Json.arrChars : List Json → List Char
  | [] => []
  | [x] => Json.toChars x
  | x :: xs => Json.toChars x ++ ',' :: Json.arrChars xs

/-- Characters of the comma-separated serialisation of object fields. -/
def Json.objChars : List (String × Json) → List Char
  | [] => []
  | [(k, v)] => jsonQuote k ++ ':' :: Json.toChars v
  | (k, v) :: fs => (jsonQuote k ++ ':' :: Json.toChars v) ++ ',' :: Json.objChars fs

end

/-- Serialisation of a parsed value, as `JSON.stringify` produces it. -/
def Json.stringify (j : Json) : String := String.mk (Json.toChars j)

/-- JavaScript numeric coercion of a JSON value holding a mark: numbers pass
through, numeric-looking strings are read as integers, everything else fails. -/
def coerceNum : Json → Option Int
  | .num n => some n
  | .str s => s.toInt?
  | _ => none

/-! ## Base64 document encoding (`fileToBase64`, src/App.tsx lines 15-25)

`FileReader.readAsDataURL` produces `data:<mediaType>;base64,<base64 of the
bytes>` (RFC 4648 base64 with padding); the source then takes
`result.split(',')[1]`.  The byte-level encoder below is the standard base64
encoding that `readAsDataURL` performs. -/

/-- The base64 alphabet, in index order. -/
def b64Alphabet : List Char :=
  ['A', 'B', 'C', 'D', 'E', 'F', 'G', 'H', 'I', 'J', 'K', 'L', 'M',
   'N', 'O', 'P', 'Q', 'R', 'S', 'T', 'U', 'V', 'W', 'X', 'Y', 'Z',
   'a', 'b', 'c', 'd', 'e', 'f', 'g', 'h', 'i', 'j', 'k', 'l', 'm',
   'n', 'o', 'p', 'q', 'r', 's', 't', 'u', 'v', 'w', 'x', 'y', 'z',
   '0', '1', '2', '3', '4', '5', '6', '7', '8', '9', '+', '/']

/-- Character for a six-bit group. -/
def b64Char (n : Nat) : Char := b64Alphabet.getD n 'A'

/-- Index of a base64 character in the alphabet. -/
def b64Index (c : Char) : Nat := b64Alphabet.indexOf c

/-- RFC 4648 base64 encoding of a byte sequence, three bytes to four
characters, with `=` padding on a trailing group of one or two bytes. -/
def base64EncodeAux : List Nat → List Char
  | [] => []
  | [a] => [b64Char (a / 4), b64Char (a % 4 * 16), '=', '=']
  | [a, b] => [b64Char (a / 4), b64Char (a % 4 * 16 + b / 16), b64Char (b % 16 * 4), '=']
  | a :: b :: c :: rest =>
      b64Char (a / 4) :: b64Char (a % 4 * 16 + b / 16) ::
      b64Char (b % 16 * 4 + c / 64) :: b64Char (c % 64) :: base64EncodeAux rest

/-- Standard base64 decoder: the inverse direction of the encoding, used to
state the spec's round-trip property (the source itself only encodes). -/
def base64DecodeAux : List Char → List Nat
  | w :: x :: y :: z :: rest =>
      if z = '=' then
        if y = '=' then [b64Index w * 4 + b64Index x / 16]
        else [b64Index w * 4 + b64Index x / 16, b64Index x % 16 * 16 + b64Index y / 4]
      else (b64Index w * 4 + b64Index x / 16) :: (b64Index x % 16 * 16 + b64Index y / 4) ::
           (b64Index y % 4 * 64 + b64Index z) :: base64DecodeAux rest
  | _ => []

/-- A file-like input as handed to the encoder: display name, declared media
type, raw bytes. -/
structure FileLike where
  name : String
  mimeType : String
  content : List Nat

/-- JavaScript `String.prototype.split` on a single separator character,
over the character list of the string. -/
def splitOnChar (sep : Char) : List Char → List (List Char)
  | [] => [[]]
  | c :: rest =>
      if c = sep then [] :: splitOnChar sep rest
      else
        match splitOnChar sep rest with
        | [] => [[c]]
        | piece :: pieces => (c :: piece) :: pieces

/-- Characters of the data URL produced by `FileReader.readAsDataURL`. -/
def dataURLChars (f : FileLike) : List Char :=
  "data:".data ++ f.mimeType.data ++ (";base64,".data ++ base64EncodeAux f.content)

/-- src/App.tsx lines 15-25 (`fileToBase64`): read the file as a data URL and
take `split(',')[1]`, the text after the first comma. -/
def fileToBase64 (f : FileLike) : List Char :=
  (splitOnChar ',' (dataURLChars f)).getD 1 []

/-! ## Error taxonomy and the (absent) validation/ingestion failure paths -/

/-- The spec's error taxonomy (spec §7).  The constructors exist so that the
claims' failure behaviours can be stated; the source never produces them. -/
inductive PipelineError where
  | UnsupportedMediaType : String → PipelineError
  | EmptyDocument : PipelineError
  | GatewayUnavailable : PipelineError
  | EmptyResponse : PipelineError
  | MalformedPayload : PipelineError
  | SchemaViolation : String → PipelineError

/-- Outcome of the document-encoding step. -/
inductive EncodeResult where
  | ok : List Char → EncodeResult
  | failed : PipelineError → EncodeResult

/-- Whether encoding failed. -/
def EncodeResult.isFailed : EncodeResult → Bool
  | .ok _ => false
  | .failed _ => true

/-- The document-encoding step of the source (src/App.tsx `fileToBase64`,
reached from `handleProcess` with no checks on the file): it unconditionally
encodes; no emptiness or media-type validation exists in the source (the
`accept="application/pdf"` attribute on the file input in
src/unnamed/part_004 lines 272-290 is a non-enforced picker hint). -/
def encodeDocument (f : FileLike) : EncodeResult := .ok (fileToBase64 f)

/-! ## Request construction

Both the client (src/App.tsx `generateEvaluationReport`, lines 249-260) and
the relay (src/netlify/functions/evaluate.ts, lines 33-44) build one
generation request from the two encoded documents. -/

/-- An encoded document as passed to the builders: `name`, base64 `data`,
declared `mimeType` (the shape built in `handleProcess`, src/App.tsx
lines 40-43, and decoded from the POST body in evaluate.ts line 28). -/
structure EncodedFile where
  name : String
  data : String
  mimeType : String

/-- One part of the `contents` of a generation request: a text part or an
inline document payload. -/
inductive Part where
  | text : String → Part
  | inlineData : (data : String) → (mimeType : String) → Part

/-- First line of the client's `PROMPT_INSTRUCTION` constant (src/App.tsx
line 205); the remainder of the verbatim prompt text plays no role in any
claim and is elided. -/
def PROMPT_INSTRUCTION : String :=
  "You are an AI academic evaluation assistant for medical anatomy education."

/-- First line of the relay's `SYSTEM_INSTRUCTION` constant (evaluate.ts
line 5); the remainder of the verbatim prompt text plays no role in any
claim and is elided. -/
def SYSTEM_INSTRUCTION : String :=
  "You are an AI Academic Evaluation Assistant for Medical Anatomy Education."

/-- The textual cross-reference part of the client request (src/App.tsx
line 255): it interpolates only the merged file's name. -/
def clientCrossRef (mergedFile : EncodedFile) : String :=
  "Merged PDF Filename: " ++ mergedFile.name

/-- The textual cross-reference part of the relay request (evaluate.ts
line 39): it interpolates both documents' names. -/
def handlerCrossRef (artifact humanFeedback : EncodedFile) : String :=
  "Artifact: " ++ artifact.name ++ ". Human Feedback: " ++ humanFeedback.name ++ "."

/-- The `parts` array of the client request (src/App.tsx lines 253-258). -/
def clientRequestParts (mergedFile feedbackFile : EncodedFile) : List Part :=
  [ .text PROMPT_INSTRUCTION,
    .text (clientCrossRef mergedFile),
    .inlineData mergedFile.data mergedFile.mimeType,
    .inlineData feedbackFile.data feedbackFile.mimeType ]

/-- The `parts` array of the relay request (evaluate.ts lines 37-42). -/
def handlerRequestParts (artifact humanFeedback : EncodedFile) : List Part :=
  [ .text SYSTEM_INSTRUCTION,
    .text (handlerCrossRef artifact humanFeedback),
    .inlineData artifact.data artifact.mimeType,
    .inlineData humanFeedback.data humanFeedback.mimeType ]

/-- A generation request: the `contents` parts together with the response
schema contract from `config` (`responseMimeType` and the top-level
`required` key list of `responseSchema`; the nested field types of the
declared schema play no role in any claim and are elided). -/
structure GenRequest where
  parts : List Part
  responseMimeType : String
  responseSchemaRequired : List String

/-- The client request (src/App.tsx lines 249-321): parts plus the schema
contract whose top-level required keys are listed at line 318. -/
def clientRequest (mergedFile feedbackFile : EncodedFile) : GenRequest :=
  { parts := clientRequestParts mergedFile feedbackFile
    responseMimeType := "application/json"
    responseSchemaRequired :=
      ["examReference", "evaluationType", "aiModelRole", "generalisedFeedback",
       "questionWiseFeedback", "scoreVerification", "finalizedFeedback", "actionSummary"] }

/-- The relay request (evaluate.ts lines 33-104): parts plus the schema
contract whose top-level required keys are listed at line 100. -/
def handlerRequest (artifact humanFeedback : EncodedFile) : GenRequest :=
  { parts := handlerRequestParts artifact humanFeedback
    responseMimeType := "application/json"
    responseSchemaRequired :=
      ["examReference", "evaluationType", "aiModelRole", "elaboratedGeneralisedFeedback",
       "questionWiseFeedback", "scoreVerification", "finalizedFeedback", "actionSummary"] }

/-! ## The client response path (src/App.tsx lines 324-325)

```
const text = response.text || "\x7b\x7d";
return JSON.parse(text) as EvaluationReport;
```

`none` models an absent or empty `response.text`; `some j` models a text
whose `JSON.parse` yields `j`.  The `as EvaluationReport` cast performs no
runtime check: the parsed value itself is the report. -/

/-- Outcome of the client pipeline after the gateway call: either a report
entity handed to the UI, or a failure.  The failure constructor exists so the
claims' failure behaviours can be stated; this path in the source never
produces one. -/
inductive ClientResult where
  | report : Json → ClientResult
  | failed : PipelineError → ClientResult

/-- Whether the client pipeline run failed. -/
def ClientResult.isFailed : ClientResult → Bool
  | .report _ => false
  | .failed _ => true

/-- The report value built from a gateway response (src/App.tsx line 324-325):
empty/absent text falls back to parsing the literal two-character object text,
i.e. the empty object; any parsed payload is returned unchecked. -/
def clientReport : Option Json → Json
  | none => .obj []
  | some j => j

/-- The client response-processing step: it always yields a report and has no
validation or failure path (src/App.tsx lines 324-325). -/
def clientProcess (text : Option Json) : ClientResult := .report (clientReport text)

/-! ## The spec-side score audit (for stating the claims)

The spec's `ScoreAuditEngine` (spec §4.5) is not present in the source; these
definitions follow the spec's words and serve as the reference computation the
claims compare the code against. -/

/-- Modelled from the spec (§4.5, `ScoreAuditEngine`, absent from the source):
the locally recomputed total, the sum of the numerically coerced
`marksAwarded` of every record of `questionWiseFeedback`, `none` when the
payload has no such array or a record's mark does not coerce. -/
def auditSum (report : Json) : Option Int :=
  match report.getField "questionWiseFeedback" with
  | some (.arr records) =>
      records.foldr (fun r acc =>
        match (r.getField "marksAwarded").bind coerceNum, acc with
        | some m, some t => some (m + t)
        | _, _ => none) (some 0)
  | _ => none

/-- The `calculatedTotal` of the report's `scoreVerification`, numerically
coerced. -/
def reportCalculatedTotal (report : Json) : Option Int :=
  ((report.getField "scoreVerification").bind (Json.getField · "calculatedTotal")).bind coerceNum

/-- The `reportedTotal` of the report's `scoreVerification`, numerically
coerced. -/
def reportReportedTotal (report : Json) : Option Int :=
  ((report.getField "scoreVerification").bind (Json.getField · "reportedTotal")).bind coerceNum

/-- The `status` of the report's `scoreVerification`. -/
def reportStatus (report : Json) : Option Json :=
  (report.getField "scoreVerification").bind (Json.getField · "status")

/-- The `discrepancyExplanation` of the report's `scoreVerification`. -/
def reportDiscrepancy (report : Json) : Option Json :=
  (report.getField "scoreVerification").bind (Json.getField · "discrepancyExplanation")

/-! ## The relay handler (src/netlify/functions/evaluate.ts) -/

/-- An incoming Netlify function event, as used by the handler. -/
structure HttpEvent where
  httpMethod : String
  body : String

/-- The handler's response: status code and body. -/
structure HttpResponse where
  statusCode : Nat
  body : String
deriving DecidableEq

/-- Outcome of `JSON.parse(event.body)` destructured to
`{ artifact, humanFeedback }` (evaluate.ts line 28): the two documents, or a
thrown parse error (caught by the handler's catch block). -/
inductive BodyParse where
  | ok : (artifact humanFeedback : EncodedFile) → BodyParse
  | threw : (message : String) → BodyParse

/-- Outcome of the `generateContent` call followed by reading `response.text`
(evaluate.ts lines 33-106): a thrown error (gateway failure, or `JSON.parse`
of the returned text failing — both caught by the same catch block), an
absent/empty `response.text`, or a text parsing to a payload. -/
inductive GatewayOutcome where
  | threw : (message : String) → GatewayOutcome
  | emptyText : GatewayOutcome
  | payload : Json → GatewayOutcome

/-- The body `JSON.stringify({ error: message })` of the handler's catch
block (evaluate.ts lines 114-118). -/
def errorBody (message : String) : String :=
  Json.stringify (Json.obj [("error", Json.str message)])

/-- src/netlify/functions/evaluate.ts lines 22-119 (`handler`), parameterised
over the body-parse and gateway environment:
* non-POST methods are answered 405 up front (lines 23-25);
* a thrown body parse or gateway error is caught and answered 500 with
  `\x7b error \x7d` (lines 113-118);
* empty `response.text` makes `result` null, answered 200 with body `null`
  (lines 106-112);
* otherwise the parsed payload is re-serialised and answered 200, with no
  validation (lines 106-112). -/
def handler (parseBody : String → BodyParse) (gw : GenRequest → GatewayOutcome)
    (event : HttpEvent) : HttpResponse :=
  if event.httpMethod ≠ "POST" then ⟨405, "Method Not Allowed"⟩
  else
    match parseBody event.body with
    | .threw message => ⟨500, errorBody message⟩
    | .ok artifact humanFeedback =>
      match gw (handlerRequest artifact humanFeedback) with
      | .threw message => ⟨500, errorBody message⟩
      | .emptyText => ⟨200, "null"⟩
      | .payload j => ⟨200, Json.stringify j⟩

/-- A 2xx (success) status code. -/
def is2xx (n : Nat) : Prop := 200 ≤ n ∧ n < 300

/-- The response contract asserted by the spec for the relay surface (spec
§6): either a serialised JSON object (the assembled report) with a success
status, or a serialised `\x7b error: string \x7d` with a non-2xx status.
This definition follows the claim's words, to be compared with `handler`. -/
def relayResponseContract (resp : HttpResponse) : Prop :=
  (is2xx resp.statusCode ∧ ∃ j : Json, j.isObj = true ∧ resp.body = Json.stringify j)
  ∨ (¬ is2xx resp.statusCode ∧ ∃ message : String, resp.body = errorBody message)

/-! ## Concrete inputs used by counterexamples and witnesses -/

/-- A schema-conformant question record with the given number and mark. -/
def sampleRecord (no : String) (marks : Int) : Json :=
  .obj [("questionNo", .str no), ("maxMarks", .num 10), ("marksAwarded", .num marks),
        ("keyAnswerPoints", .str "expected key points"),
        ("studentAnswerSummary", .str "student answer summary"),
        ("humanFeedback", .str "human comment"),
        ("aiFeedbackAddition", .str "one-line AI suggestion")]

/-- A schema-conformant gateway payload whose `calculatedTotal` (99) differs
from the sum of its `marksAwarded` values (8 + 7 + 10 = 25). -/
def cexPayloadC1 : Json :=
  .obj [("examReference", .str "anatomy-exam.pdf"), ("evaluationType", .str "Anatomy Theory"),
        ("aiModelRole", .str "evaluation assistant"),
        ("generalisedFeedback", .str "overall feedback"),
        ("questionWiseFeedback",
          .arr [sampleRecord "1" 8, sampleRecord "2" 7, sampleRecord "3" 10]),
        ("scoreVerification",
          .obj [("calculatedTotal", .num 99), ("reportedTotal", .num 25),
                ("status", .str "Correct")]),
        ("finalizedFeedback", .arr []), ("actionSummary", .arr [])]

/-- A schema-conformant gateway payload with `status` "Correct" although
`calculatedTotal` (25) differs from `reportedTotal` (24), the reported total
differs from the sum of the marks (25), and no `discrepancyExplanation`. -/
def cexPayloadC2 : Json :=
  .obj [("examReference", .str "anatomy-exam.pdf"), ("evaluationType", .str "Anatomy Theory"),
        ("aiModelRole", .str "evaluation assistant"),
        ("generalisedFeedback", .str "overall feedback"),
        ("questionWiseFeedback",
          .arr [sampleRecord "1" 8, sampleRecord "2" 7, sampleRecord "3" 10]),
        ("scoreVerification",
          .obj [("calculatedTotal", .num 25), ("reportedTotal", .num 24),
                ("status", .str "Correct")]),
        ("finalizedFeedback", .arr []), ("actionSummary", .arr [])]

/-- A syntactically valid JSON payload missing the required
`scoreVerification` field and carrying an empty `questionWiseFeedback`
sequence. -/
def cexMissingC3 : Json :=
  .obj [("examReference", .str "anatomy-exam.pdf"), ("evaluationType", .str "Anatomy Theory"),
        ("aiModelRole", .str "evaluation assistant"),
        ("generalisedFeedback", .str "overall feedback"),
        ("questionWiseFeedback", .arr []),
        ("finalizedFeedback", .arr []), ("actionSummary", .arr [])]

/-- A concrete artifact document for relay scenarios. -/
def artifactDoc : EncodedFile := ⟨"merged.pdf", "QkFTRTY0", "application/pdf"⟩

/-- A concrete human-feedback document for relay scenarios. -/
def feedbackDoc : EncodedFile := ⟨"feedback.pdf", "RkVFRA==", "application/pdf"⟩

/-- A body-parse environment in which `JSON.parse(event.body)` succeeds with
the two concrete documents. -/
def pbOk : String → BodyParse := fun _ => .ok artifactDoc feedbackDoc

/-- A gateway environment whose response text is absent or empty. -/
def gwEmptyText : GenRequest → GatewayOutcome := fun _ => .emptyText

/-- A concrete POST event. -/
def evPost : HttpEvent := ⟨"POST", "request-body"⟩

/-- A concrete empty file with a media type outside the PDF/word-processor
allow-list. -/
def emptyTextFile : FileLike := ⟨"notes.txt", "text/plain", []⟩

/-! ## Helper lemmas: base64 and the data-URL split -/

set_option maxRecDepth 10000

/-- The alphabet character of a six-bit group decodes back to its index. -/
theorem b64Index_b64Char : ∀ s : Nat, s < 64 → b64Index (b64Char s) = s := by decide

/-- Every produced base64 character belongs to the alphabet. -/
theorem b64Char_mem (s : Nat) : b64Char s ∈ b64Alphabet := by
  unfold b64Char
  rcases Nat.lt_or_ge s b64Alphabet.length with h | h
  · rw [List.getD_eq_getElem _ _ h]
    exact List.getElem_mem h
  · rw [List.getD_eq_default _ _ h]
    decide

/-- Alphabet characters are never the padding character. -/
theorem b64Char_ne_pad (s : Nat) : b64Char s ≠ '=' := by
  intro h
  have := b64Char_mem s
  rw [h] at this
  exact absurd this (by decide)

/-- Decoding inverts encoding on byte sequences. -/
theorem base64_decode_encode : ∀ bs : List Nat, (∀ b ∈ bs, b < 256) →
    base64DecodeAux (base64EncodeAux bs) = bs
  | [], _ => rfl
  | [a], h => by
      have ha : a < 256 := h a (by simp)
      have h1 : a / 4 < 64 := by omega
      have h2 : a % 4 * 16 < 64 := by omega
      simp only [base64EncodeAux, base64DecodeAux, if_pos rfl, ite_true,
        b64Index_b64Char _ h1, b64Index_b64Char _ h2, List.cons.injEq, and_true]
      omega
  | [a, b], h => by
      have ha : a < 256 := h a (by simp)
      have hb : b < 256 := h b (by simp)
      have h1 : a / 4 < 64 := by omega
      have h2 : a % 4 * 16 + b / 16 < 64 := by omega
      have h3 : b % 16 * 4 < 64 := by omega
      simp only [base64EncodeAux, base64DecodeAux, if_pos rfl, ite_true,
        if_neg (b64Char_ne_pad _),
        b64Index_b64Char _ h1, b64Index_b64Char _ h2, b64Index_b64Char _ h3,
        List.cons.injEq, and_true]
      exact ⟨by omega, by omega⟩
  | a :: b :: c :: rest, h => by
      have ha : a < 256 := h a (by simp)
      have hb : b < 256 := h b (by simp)
      have hc : c < 256 := h c (by simp)
      have h1 : a / 4 < 64 := by omega
      have h2 : a % 4 * 16 + b / 16 < 64 := by omega
      have h3 : b % 16 * 4 + c / 64 < 64 := by omega
      have h4 : c % 64 < 64 := by omega
      have ih := base64_decode_encode rest (fun x hx => h x (by simp [hx]))
      simp only [base64EncodeAux, base64DecodeAux, if_neg (b64Char_ne_pad _),
        b64Index_b64Char _ h1, b64Index_b64Char _ h2, b64Index_b64Char _ h3,
        b64Index_b64Char _ h4, List.cons.injEq]
      exact ⟨by omega, by omega, by omega, ih⟩

/-- The encoded text never contains a comma, so `split(',')[1]` of the data
URL recovers it whole. -/
theorem base64EncodeAux_no_comma : ∀ bs : List Nat, ∀ ch ∈ base64EncodeAux bs, ch ≠ ','
  | [], ch, hch => by simp [base64EncodeAux] at hch
  | [a], ch, hch => by
      simp only [base64EncodeAux, List.mem_cons, List.not_mem_nil, or_false] at hch
      rcases hch with h | h | h | h <;> subst h
      · intro he
        exact absurd (he ▸ b64Char_mem (a / 4)) (by decide)
      · intro he
        exact absurd (he ▸ b64Char_mem (a % 4 * 16)) (by decide)
      · decide
      · decide
  | [a, b], ch, hch => by
      simp only [base64EncodeAux, List.mem_cons, List.not_mem_nil, or_false] at hch
      rcases hch with h | h | h | h <;> subst h
      · intro he
        exact absurd (he ▸ b64Char_mem (a / 4)) (by decide)
      · intro he
        exact absurd (he ▸ b64Char_mem (a % 4 * 16 + b / 16)) (by decide)
      · intro he
        exact absurd (he ▸ b64Char_mem (b % 16 * 4)) (by decide)
      · decide
  | a :: b :: c :: rest, ch, hch => by
      simp only [base64EncodeAux, List.mem_cons] at hch
      rcases hch with h | h | h | h | h
      · subst h
        intro he
        exact absurd (he ▸ b64Char_mem (a / 4)) (by decide)
      · subst h
        intro he
        exact absurd (he ▸ b64Char_mem (a % 4 * 16 + b / 16)) (by decide)
      · subst h
        intro he
        exact absurd (he ▸ b64Char_mem (b % 16 * 4 + c / 64)) (by decide)
      · subst h
        intro he
        exact absurd (he ▸ b64Char_mem (c % 64)) (by decide)
      · exact base64EncodeAux_no_comma rest ch h

/-- Splitting a separator-free list yields that list as the only piece. -/
theorem splitOnChar_no_sep (sep : Char) : ∀ l : List Char, (∀ c ∈ l, c ≠ sep) →
    splitOnChar sep l = [l]
  | [], _ => rfl
  | c :: rest, h => by
      have hc : c ≠ sep := h c (by simp)
      have ih := splitOnChar_no_sep sep rest (fun x hx => h x (by simp [hx]))
      simp only [splitOnChar, if_neg hc, ih]

/-- Splitting at the first separator detaches the separator-free prefix. -/
theorem splitOnChar_append (sep : Char) : ∀ pre post : List Char, (∀ c ∈ pre, c ≠ sep) →
    splitOnChar sep (pre ++ sep :: post) = pre :: splitOnChar sep post
  | [], post, _ => by simp [splitOnChar]
  | c :: pre, post, h => by
      have hc : c ≠ sep := h c (by simp)
      have ih := splitOnChar_append sep pre post (fun x hx => h x (by simp [hx]))
      simp only [List.cons_append, splitOnChar, if_neg hc]
      rw [List.append_eq, ih]

/-- For a comma-free media type, `fileToBase64` returns exactly the base64
encoding of the file's bytes (the text after the data-URL prefix). -/
theorem fileToBase64_eq_encode (f : FileLike) (hm : ∀ ch ∈ f.mimeType.data, ch ≠ ',') :
    fileToBase64 f = base64EncodeAux f.content := by
  have hdecomp : dataURLChars f =
      ("data:".data ++ f.mimeType.data ++ ";base64".data) ++ ',' :: base64EncodeAux f.content := by
    unfold dataURLChars
    have : (";base64,".data : List Char) = ";base64".data ++ [','] := by decide
    rw [this]
    simp [List.append_assoc]
  have hdata : ∀ ch ∈ ("data:".data : List Char), ch ≠ ',' := by decide
  have hb64 : ∀ ch ∈ (";base64".data : List Char), ch ≠ ',' := by decide
  have hpre : ∀ ch ∈ "data:".data ++ f.mimeType.data ++ ";base64".data, ch ≠ ',' := by
    intro ch hch
    rcases List.mem_append.1 hch with hch | hch
    · rcases List.mem_append.1 hch with hch | hch
      · exact hdata ch hch
      · exact hm ch hch
    · exact hb64 ch hch
  unfold fileToBase64
  rw [hdecomp, splitOnChar_append _ _ _ hpre,
    splitOnChar_no_sep _ _ (base64EncodeAux_no_comma f.content)]
  rfl

/-! ## Claims -/

/-- C1 (counterexample): on a concrete schema-conformant gateway payload whose
`calculatedTotal` (99) differs from the sum of its `marksAwarded` marks
(8 + 7 + 10 = 25), the pipeline's final report carries the gateway's 99
verbatim, not the locally recomputed sum — refuting the claim that
`calculatedTotal` is always recomputed locally and never taken from the
gateway. -/
theorem c1_counterexample :
    reportCalculatedTotal (clientReport (some cexPayloadC1)) = some 99 ∧
    auditSum (clientReport (some cexPayloadC1)) = some 25 ∧
    reportCalculatedTotal (clientReport (some cexPayloadC1)) ≠
      auditSum (clientReport (some cexPayloadC1)) := by
  refine ⟨rfl, rfl, ?_⟩
  decide

/-- C1 (amended): the final report's whole `scoreVerification` object —
`calculatedTotal` and `status` included — is taken verbatim from the
generation gateway's payload; the pipeline performs no local recomputation
(src/App.tsx lines 324-325). -/
theorem c1_amended (j : Json) :
    (clientReport (some j)).getField "scoreVerification" = j.getField "scoreVerification" :=
  rfl

/-- C2 (counterexample): on a concrete gateway payload the final report has
`status` "Correct" although its `calculatedTotal` (25) differs from its
`reportedTotal` (24), the reported total differs from the sum of the marks
(25), and no `discrepancyExplanation` is present — refuting both directions of
the claimed status/total relationship. -/
theorem c2_counterexample :
    reportStatus (clientReport (some cexPayloadC2)) = some (.str "Correct") ∧
    reportCalculatedTotal (clientReport (some cexPayloadC2)) ≠
      reportReportedTotal (clientReport (some cexPayloadC2)) ∧
    auditSum (clientReport (some cexPayloadC2)) ≠
      reportReportedTotal (clientReport (some cexPayloadC2)) ∧
    reportDiscrepancy (clientReport (some cexPayloadC2)) = none := by
  refine ⟨rfl, by decide, by decide, rfl⟩

/-- C2 (amended): `status` and `discrepancyExplanation` in the final report
are taken verbatim from the gateway payload; the pipeline enforces no relation
between `status`, `calculatedTotal` and `reportedTotal` (src/App.tsx
lines 324-325). -/
theorem c2_amended (j : Json) :
    reportStatus (clientReport (some j)) =
      (j.getField "scoreVerification").bind (Json.getField · "status") ∧
    reportDiscrepancy (clientReport (some j)) =
      (j.getField "scoreVerification").bind (Json.getField · "discrepancyExplanation") :=
  ⟨rfl, rfl⟩

/-- C3 (counterexample): a syntactically valid payload missing the required
`scoreVerification` field (and with an empty `questionWiseFeedback` sequence)
is passed through as a report; the run does not fail with a `SchemaViolation`
— the missing field silently flows into the report. -/
theorem c3_counterexample :
    clientProcess (some cexMissingC3) = .report cexMissingC3 ∧
    (clientProcess (some cexMissingC3)).isFailed = false ∧
    cexMissingC3.getField "scoreVerification" = none :=
  ⟨rfl, rfl, rfl⟩

/-- C3 (amended): the pipeline performs no response validation: every parsed
payload, fields missing or not, is passed through verbatim as the report and
no run ever fails with a `SchemaViolation` (src/App.tsx lines 324-325). -/
theorem c3_amended (j : Json) :
    clientProcess (some j) = .report j ∧ (clientProcess (some j)).isFailed = false :=
  ⟨rfl, rfl⟩

/-- C4 (counterexample): an empty or absent gateway response text does not
fail the client run: it produces a report parsed from the literal empty-object
fallback text, and the relay answers it with HTTP 200 and body `null` — no
`EmptyResponse` failure is surfaced on either cited path. -/
theorem c4_counterexample :
    (clientProcess none).isFailed = false ∧
    handler pbOk gwEmptyText evPost = ⟨200, "null"⟩ :=
  ⟨rfl, rfl⟩

/-- C4 (amended): on empty or absent gateway text the client produces a
report equal to the empty JSON object (the parse of the fallback text,
src/App.tsx line 324), and the relay responds 200 with body `null`
(evaluate.ts lines 106-112); neither path surfaces a failure. -/
theorem c4_amended :
    clientProcess none = .report (.obj []) ∧
    ∀ body : String, handler pbOk gwEmptyText ⟨"POST", body⟩ = ⟨200, "null"⟩ :=
  ⟨rfl, fun _ => rfl⟩

/-- C5 (counterexample): when the gateway's response text is empty, the relay
answers a POST with status 200 and body `null`, which is neither a serialised
report object nor an `error` object with a non-2xx status — refuting the
claimed response contract. -/
theorem c5_counterexample : ¬ relayResponseContract (handler pbOk gwEmptyText evPost) := by
  have hresp : handler pbOk gwEmptyText evPost = ⟨200, "null"⟩ := rfl
  rw [hresp]
  rintro (⟨-, j, hobj, hbody⟩ | ⟨hnot, -⟩)
  · cases j with
    | obj fs =>
        have h1 : ("null" : String).data.head? = some 'n' := rfl
        have h2 : (Json.stringify (Json.obj fs)).data.head? = some lbrace := by
          simp [Json.stringify, Json.toChars]
        rw [show (⟨200, "null"⟩ : HttpResponse).body = "null" from rfl] at hbody
        rw [hbody] at h1
        rw [h1] at h2
        exact absurd h2 (by decide)
    | null => simp [Json.isObj] at hobj
    | bool b => simp [Json.isObj] at hobj
    | num n => simp [Json.isObj] at hobj
    | str s => simp [Json.isObj] at hobj
    | arr xs => simp [Json.isObj] at hobj
  · exact hnot ⟨by norm_num, by norm_num⟩

/-- C5 (amended): for every POST request, the relay responds either 500 with
an `error` object (thrown body-parse or gateway errors), or 200 with the
serialised gateway payload (unvalidated), or — when the gateway text is
empty — 200 with body `null`. -/
theorem c5_amended (parseBody : String → BodyParse) (gw : GenRequest → GatewayOutcome)
    (event : HttpEvent) (hpost : event.httpMethod = "POST") :
    (∃ message, handler parseBody gw event = ⟨500, errorBody message⟩) ∨
    (∃ j, handler parseBody gw event = ⟨200, Json.stringify j⟩) ∨
    handler parseBody gw event = ⟨200, "null"⟩ := by
  unfold handler
  rw [if_neg (by simp [hpost])]
  cases parseBody event.body with
  | threw message => exact .inl ⟨message, rfl⟩
  | ok artifact humanFeedback =>
      dsimp only
      cases gw (handlerRequest artifact humanFeedback) with
      | threw message => exact .inl ⟨message, rfl⟩
      | emptyText => exact .inr (.inr rfl)
      | payload j => exact .inr (.inl ⟨j, rfl⟩)

/-- C5 (witness): the amended response-shape disjunction at a concrete POST
event, body-parse environment and gateway environment. -/
theorem c5_witness :
    (∃ message, handler pbOk gwEmptyText evPost = ⟨500, errorBody message⟩) ∨
    (∃ j, handler pbOk gwEmptyText evPost = ⟨200, Json.stringify j⟩) ∨
    handler pbOk gwEmptyText evPost = ⟨200, "null"⟩ :=
  c5_amended pbOk gwEmptyText evPost rfl

/-- C6 (counterexample): a concrete empty file whose declared media type
(`text/plain`) lies outside the allow-list is encoded successfully — the
encoder signals neither `EmptyDocument` nor `UnsupportedMediaType`. -/
theorem c6_counterexample :
    encodeDocument emptyTextFile = .ok [] ∧
    (encodeDocument emptyTextFile).isFailed = false :=
  ⟨rfl, rfl⟩

/-- C6 (amended): the document-encoding step validates nothing: for every
file-like input — empty content and arbitrary media types included — it
succeeds with the base64 encoding of the bytes; it is a pure transform, and
the only media-type restriction in the source is the non-enforced
`accept` picker hint of the upload widget. -/
theorem c6_amended (f : FileLike) : (encodeDocument f).isFailed = false := rfl

/-- C7: for every file accepted by the encoder (arbitrary bytes, comma-free
declared media type), decoding the base64 text that `fileToBase64` extracts
from the data URL yields exactly the original bytes: the encode-then-decode
round trip is the identity. -/
theorem c7_roundtrip (f : FileLike) (hbytes : ∀ b ∈ f.content, b < 256)
    (hm : ∀ ch ∈ f.mimeType.data, ch ≠ ',') :
    base64DecodeAux (fileToBase64 f) = f.content := by
  rw [fileToBase64_eq_encode f hm]
  exact base64_decode_encode f.content hbytes

/-- C7 (witness): the round trip at a concrete PDF file whose content is the
four magic bytes of a PDF header. -/
theorem c7_witness :
    base64DecodeAux (fileToBase64 ⟨"scan.pdf", "application/pdf", [37, 80, 68, 70]⟩) =
      [37, 80, 68, 70] :=
  c7_roundtrip ⟨"scan.pdf", "application/pdf", [37, 80, 68, 70]⟩ (by decide) (by decide)

/-- C8 (counterexample): the client's generation request is unchanged when
the feedback document's name changes, so no part of it can name that
document — refuting the claim that the request contains a textual
cross-reference naming both documents. -/
theorem c8_counterexample :
    clientRequest ⟨"merged.pdf", "QkFTRTY0", "application/pdf"⟩
        ⟨"feedback.pdf", "RkVFRA==", "application/pdf"⟩ =
      clientRequest ⟨"merged.pdf", "QkFTRTY0", "application/pdf"⟩
        ⟨"unrelated.pdf", "RkVFRA==", "application/pdf"⟩ :=
  rfl

/-- C8 (amended): the client request consists of the fixed instruction, a
cross-reference naming only the merged document (it is invariant under
renaming the feedback document), both encoded payloads and the schema
contract; the relay request's cross-reference names both documents. -/
theorem c8_amended :
    (∀ m f g : EncodedFile, f.data = g.data → f.mimeType = g.mimeType →
      clientRequest m f = clientRequest m g) ∧
    (∀ a hf : EncodedFile,
      Part.text (handlerCrossRef a hf) ∈ (handlerRequest a hf).parts ∧
      a.name.data <:+: (handlerCrossRef a hf).data ∧
      hf.name.data <:+: (handlerCrossRef a hf).data) := by
  constructor
  · intro m f g hd hmt
    simp [clientRequest, clientRequestParts, clientCrossRef, hd, hmt]
  · intro a hf
    refine ⟨by simp [handlerRequest, handlerRequestParts], ?_, ?_⟩
    · exact ⟨"Artifact: ".data, (". Human Feedback: " ++ hf.name ++ ".").data,
        by simp [handlerCrossRef, String.data_append, List.append_assoc]⟩
    · exact ⟨("Artifact: " ++ a.name ++ ". Human Feedback: ").data, ".".data,
        by simp [handlerCrossRef, String.data_append, List.append_assoc]⟩

/-- C8 (witness): the invariance half of the amended claim at two concrete
feedback documents that differ only in name. -/
theorem c8_witness :
    clientRequest ⟨"m.pdf", "AAAA", "application/pdf"⟩ ⟨"f1.pdf", "BBBB", "application/pdf"⟩ =
      clientRequest ⟨"m.pdf", "AAAA", "application/pdf"⟩ ⟨"f2.pdf", "BBBB", "application/pdf"⟩ :=
  c8_amended.1 ⟨"m.pdf", "AAAA", "application/pdf"⟩ ⟨"f1.pdf", "BBBB", "application/pdf"⟩
    ⟨"f2.pdf", "BBBB", "application/pdf"⟩ rfl rfl

/-- C9: the assembled report's `questionWiseFeedback` is exactly the sequence
of the generation payload — same records, same order, duplicates preserved;
assembly never reorders, deduplicates or modifies the records (src/App.tsx
lines 324-325: the payload passes through verbatim). -/
theorem c9_order_preserved (j : Json) :
    (clientReport (some j)).getField "questionWiseFeedback" =
      j.getField "questionWiseFeedback" :=
  rfl

/-- C10: for every incoming event whose method is not POST, the relay answers
405 immediately; quantifying over every body-parse and gateway environment
shows the body is never parsed and the gateway never invoked. -/
theorem c10_non_post_405 (parseBody : String → BodyParse) (gw : GenRequest → GatewayOutcome)
    (event : HttpEvent) (h : event.httpMethod ≠ "POST") :
    handler parseBody gw event = ⟨405, "Method Not Allowed"⟩ := by
  unfold handler
  rw [if_pos h]

/-- C10 (witness): the 405 answer at a concrete GET event. -/
theorem c10_witness :
    handler pbOk gwEmptyText ⟨"GET", "irrelevant"⟩ = ⟨405, "Method Not Allowed"⟩ :=
  c10_non_post_405 pbOk gwEmptyText ⟨"GET", "irrelevant"⟩ (by decide)

end AnatomyGuru
